import Mathlib

/-!
Shallow embedding of `src/mopidy/audio/scan.py`: the `Scanner` class
(`scan`, `_setup`, `_collect`, `_reset`, `_query_duration`, `_query_mtime`)
and the `audio_data_to_track` function, together with theorems checking the
natural-language specification against this embedding.

The GStreamer engine (pipeline, bus, clock, filesystem) is external to the
repository; it enters the model as an `Env` value: the poll-loop observations
(`time.time()` reading at each loop iteration paired with the message `pop`
would yield, if any), the result of `query_duration`, the pre-roll outcome of
`set_state(PAUSED)`, and the `os.path.getmtime` values for `file:` URIs.
Python integers are `Int`/`Nat`; a Python value that may be `None` is either
an `Option` or the explicit `TagValue.null` variant when it is stored inside
the tag dictionary. A Python function that can raise becomes `Option`- or
`Except`-valued.
-/

namespace MopidyScan

/-- Values stored in the scanned tag dictionary: GStreamer taglist entries are
strings, integers, dates or lists of strings; the reserved `mtime` and
`duration` entries written by `Scanner.scan` may also be Python `None`
(`null`). -/
inductive TagValue where
  | null : TagValue
  | int (n : Int) : TagValue
  | str (s : String) : TagValue
  | strs (l : List String) : TagValue
  | date (year month day : Int) : TagValue
deriving DecidableEq, Repr

/-- The scanned data dictionary (`data` in `Scanner.scan` / `_collect`).
A Python `dict` keyed by tag-name strings; lookup takes the first (most
recently inserted) binding. -/
abbrev TagMap := List (String × TagValue)

/-- Python `data[key] = value`: dictionary assignment, overwriting any earlier
binding for `key` (later bindings shadow earlier ones under `List.lookup`). -/
def tmInsert (m : TagMap) (k : String) (v : TagValue) : TagMap :=
  (k, v) :: m

/-- GStreamer tag-name constants used by scan.py (`gst.TAG_*`). -/
def TAG_DURATION : String := "duration"
def TAG_ALBUM : String := "album"
def TAG_TRACK_COUNT : String := "track-count"
def TAG_ALBUM_VOLUME_COUNT : String := "album-disc-count"
def TAG_ARTIST : String := "artist"
def TAG_COMPOSER : String := "composer"
def TAG_PERFORMER : String := "performer"
def TAG_ALBUM_ARTIST : String := "album-artist"
def TAG_TITLE : String := "title"
def TAG_TRACK_NUMBER : String := "track-number"
def TAG_ALBUM_VOLUME_NUMBER : String := "album-disc-number"
def TAG_GENRE : String := "genre"
def TAG_BITRATE : String := "bitrate"
def TAG_ORGANIZATION : String := "organization"
def TAG_LOCATION : String := "location"
def TAG_COPYRIGHT : String := "copyright"
def TAG_DATE : String := "date"

/-- `gst.MSECOND`: one millisecond expressed in GStreamer `FORMAT_TIME`
(nanosecond) units. -/
def MSECOND : Int := 1000000

/-- The bus messages `_collect` classifies: `gst.MESSAGE_ERROR`,
`gst.MESSAGE_EOS`, `gst.MESSAGE_ASYNC_DONE` (with whether `message.src`
is the top-level pipeline), `gst.MESSAGE_TAG` (with its key/value pairs),
and any other message type. -/
inductive GstMessage where
  | error (msg : String) : GstMessage
  | eos : GstMessage
  | asyncDone (srcIsPipe : Bool) : GstMessage
  | tag (tags : List (String × TagValue)) : GstMessage
  | other : GstMessage
deriving DecidableEq, Repr

/-- `mopidy.exceptions.ScannerError`, carrying its message string. -/
structure ScannerError where
  msg : String
deriving DecidableEq, Repr

/-- Message text of `'Timeout after %dms' % timeout_ms`. -/
def timeoutMsg (timeoutMs : Nat) : String :=
  "Timeout after " ++ toString timeoutMs ++ "ms"

/-- Message text of `'Rejecting file with less than %dms audio data.'`. -/
def rejectMsg (minDurationMs : Int) : String :=
  "Rejecting file with less than " ++ toString minDurationMs ++
    "ms audio data."

/-- One iteration of the `_collect` polling loop as observed from outside:
the `time.time()` reading at the top of the loop body, and the message the
bus would deliver on this iteration (`none` when `have_pending()` is false
and the loop just spins). -/
abbrev PollObs := Nat × Option GstMessage

/-- `Scanner._collect`: polls observations in order, bounded by wall-clock
time.  The Python loop guard `time.time() - start < timeout_ms / 1000.0`
becomes `t < start + timeoutMs` with all times in milliseconds.  Returns the
loop outcome together with the unconsumed remainder of the observation
trace, or `none` when the trace is exhausted before the loop terminates
(the trace is too short to decide the run). -/
def collect (start timeoutMs : Nat) (data : TagMap) :
    List PollObs → Option (Except ScannerError TagMap × List PollObs)
  | [] => none
  | (t, msg) :: rest =>
    if t < start + timeoutMs then
      match msg with
      | none => collect start timeoutMs data rest
      | some (.error e) => some (.error ⟨e⟩, rest)
      | some .eos => some (.ok data, rest)
      | some (.asyncDone srcIsPipe) =>
        if srcIsPipe then some (.ok data, rest)
        else collect start timeoutMs data rest
      | some (.tag kvs) =>
        collect start timeoutMs (kvs.foldl (fun m kv => tmInsert m kv.1 kv.2) data) rest
      | some .other => collect start timeoutMs data rest
    else
      some (.error ⟨timeoutMsg timeoutMs⟩, (t, msg) :: rest)

/-- GStreamer pipeline states touched by scan.py. -/
inductive PipeState where
  | null | ready | paused | playing
deriving DecidableEq, Repr

/-- The externally visible pipeline/bus state owned by a `Scanner`. -/
structure PipeBus where
  pipeState : PipeState
  busFlushing : Bool
deriving DecidableEq, Repr

/-- The external world one `Scanner.scan` call interacts with. -/
structure Env where
  /-- `time.time()` reading taken by `_collect` before its loop. -/
  startTime : Nat
  /-- The poll-loop observations (see `PollObs`). -/
  trace : List PollObs
  /-- Result of `self._pipe.query_duration(gst.FORMAT_TIME, None)[0]` in
  nanoseconds, or `none` when the query raises `gst.QueryError`. -/
  durationNs : Option Int
  /-- Whether `set_state(gst.STATE_PAUSED)` returned
  `gst.STATE_CHANGE_NO_PREROLL` (a live source). -/
  noPreroll : Bool
  /-- `os.path.getmtime(path.uri_to_path(uri))`, truncated to seconds. -/
  mtimeOf : String → Int

/-- Constructor configuration of `Scanner.__init__`: `timeout` in ms and
`min_duration` in ms, where Python `None` is the unbounded sentinel. -/
structure Scanner where
  timeoutMs : Nat
  minDurationMs : Option Int

/-- `Scanner._setup`: `STATE_READY`, bind the uri, stop flushing the bus,
then `STATE_PAUSED`; on `STATE_CHANGE_NO_PREROLL`, go to `STATE_PLAYING`. -/
def setup (env : Env) : PipeBus :=
  { pipeState := if env.noPreroll then .playing else .paused
    busFlushing := false }

/-- `Scanner._reset`: flush the bus and drop the pipeline to `STATE_NULL`.
A total function of the previous state: the underlying `set_state` reports
failure through its discarded return value, never by raising. -/
def reset (pb : PipeBus) : PipeBus :=
  { pb with busFlushing := true, pipeState := .null }

/-- `Scanner._query_duration`: the queried duration in nanoseconds, or
Python `None` when the query raises `gst.QueryError`. -/
def query_duration (env : Env) : TagValue :=
  match env.durationNs with
  | some d => .int d
  | none => .null

/-- Python `uri.startswith('file:')`, phrased over the character lists of the
strings so that it evaluates inside the kernel. -/
def startsWithFile (uri : String) : Bool :=
  List.isPrefixOf "file:".data uri.data

/-- `Scanner._query_mtime`: `None` unless the uri starts with `file:`,
else the file's modification time. -/
def query_mtime (env : Env) (uri : String) : TagValue :=
  if startsWithFile uri then .int (env.mtimeOf uri) else .null

/-- Python 2 comparison `v >= bound` where `v` is the freshly stored
duration value (an integer or `None`): in CPython 2, `None` compares less
than every number, so `None >= bound` is `False`. Other variants cannot
occur at the one call site. -/
def pyGe (v : TagValue) (bound : Int) : Bool :=
  match v with
  | .int n => bound ≤ n
  | _ => false

/-- Lines 58-70 of `Scanner.scan`, after `_collect` returned `data0` and the
`finally` block ran: store the reserved keys, then apply the minimum-duration
acceptance check. -/
def scanFinalize (s : Scanner) (uri : String) (env : Env) (data0 : TagMap) :
    Except ScannerError TagMap :=
  let data1 := tmInsert data0 "uri" (.str uri)
  let data2 := tmInsert data1 "mtime" (query_mtime env uri)
  let data := tmInsert data2 TAG_DURATION (query_duration env)
  match s.minDurationMs with
  | none => .ok data
  | some m =>
    let dur := (List.lookup TAG_DURATION data).getD .null
    if pyGe dur (m * MSECOND) then .ok data
    else .error ⟨rejectMsg m⟩

/-- `Scanner.scan`: setup, collect, reserved-key assignment and acceptance
check, with `_reset` running in a `finally` on every exit path.  The result
pairs the call outcome (returned dictionary or raised `ScannerError`) with
the pipeline/bus state the call leaves behind; `none` means the observation
trace was too short for the collect loop to terminate. -/
def scan (s : Scanner) (uri : String) (env : Env) :
    Option (Except ScannerError TagMap × PipeBus) :=
  let pb := setup env
  match collect env.startTime s.timeoutMs [] env.trace with
  | none => none
  | some (res, _) =>
    let res2 := match res with
      | .error e => Except.error e
      | .ok data0 => scanFinalize s uri env data0
    some (res2, reset pb)

/-- An `Artist` record as built by `audio_data_to_track` via
`Artist(**kwargs)`; the spec's boundary assumption is that domain records are
simple immutable constructors over their keyword arguments. -/
structure Artist where
  name : Option TagValue := none
  musicbrainz_id : Option TagValue := none
deriving DecidableEq, Repr

/-- An `Album` record as built via `Album(**kwargs)`. -/
structure Album where
  name : Option TagValue := none
  num_tracks : Option TagValue := none
  num_discs : Option TagValue := none
  musicbrainz_id : Option TagValue := none
  artists : List Artist := []
deriving DecidableEq, Repr

/-- A `Track` record as built via `Track(**kwargs)`. -/
structure Track where
  uri : TagValue
  name : Option TagValue := none
  track_no : Option TagValue := none
  disc_no : Option TagValue := none
  genre : Option TagValue := none
  bitrate : Option TagValue := none
  comment : Option TagValue := none
  musicbrainz_id : Option TagValue := none
  date : Option String := none
  length : Option Int := none
  last_modified : Option Int := none
  album : Album
  artists : List Artist
  composers : List Artist
  performers : List Artist
deriving DecidableEq, Repr

/-- One of the transient keyword-argument dicts `artist_kwargs`,
`composer_kwargs`, `performer_kwargs`, `albumartist_kwargs`. -/
structure ArtistKwargs where
  name : Option TagValue := none
  musicbrainz_id : Option TagValue := none
deriving DecidableEq, Repr

/-- Python truthiness of a kwargs dict (`if albumartist_kwargs:` /
`if composer_kwargs`): non-empty means some key has been set. -/
def ArtistKwargs.nonempty (k : ArtistKwargs) : Bool :=
  k.name.isSome || k.musicbrainz_id.isSome

/-- `Artist(**kwargs)` on a transient kwargs dict. -/
def mkArtist (k : ArtistKwargs) : Artist :=
  { name := k.name, musicbrainz_id := k.musicbrainz_id }

/-- The transient `album_kwargs` dict. -/
structure AlbumKwargs where
  name : Option TagValue := none
  num_tracks : Option TagValue := none
  num_discs : Option TagValue := none
  musicbrainz_id : Option TagValue := none
deriving DecidableEq, Repr

/-- The `_retrieve(source_key, target_key, target)` helper of
`audio_data_to_track`: `target.setdefault(target_key, data[source_key])`
guarded by `source_key in data` — the current binding `cur` wins if present,
otherwise the tag value is copied in when the source key exists. -/
def retrieve (data : TagMap) (sourceKey : String) (cur : Option TagValue) :
    Option TagValue :=
  match cur with
  | some v => some v
  | none => List.lookup sourceKey data

/-- Python truthiness of a tag value (`if data[gst.TAG_DATE]`,
`if data['mtime']`, `if data[gst.TAG_DURATION]`). -/
def truthy : TagValue → Bool
  | .null => false
  | .int n => n != 0
  | .str s => s != ""
  | .strs l => !l.isEmpty
  | .date _ _ _ => true

/-- Python `int(value)` for the values `Scanner.scan` stores under `mtime`
(a number or `None`; the call site is guarded by truthiness, so `None` never
reaches it). Non-numeric values would raise, modelled as `none`. -/
def toIntVal : TagValue → Option Int
  | .int n => some n
  | _ => none

/-- Day count of a month as `datetime.date` validates it (proleptic
Gregorian). -/
def daysInMonth (y m : Int) : Int :=
  if m = 2 then
    if (y % 4 = 0 && y % 100 != 0) || y % 400 = 0 then 29 else 28
  else if m = 4 || m = 6 || m = 9 || m = 11 then 30
  else 31

/-- Whether `datetime.date(y, m, d)` succeeds (no `ValueError`):
`datetime.MINYEAR = 1`, `datetime.MAXYEAR = 9999`. -/
def validDate (y m d : Int) : Bool :=
  decide (1 ≤ y) && decide (y ≤ 9999) && decide (1 ≤ m) && decide (m ≤ 12) &&
    decide (1 ≤ d) && decide (d ≤ daysInMonth y m)

/-- Zero-padded two-digit rendering used by `date.isoformat()`. -/
def pad2 (n : Int) : String :=
  if n < 10 then "0" ++ toString n else toString n

/-- Zero-padded four-digit year rendering used by `date.isoformat()`. -/
def pad4 (n : Int) : String :=
  if n < 10 then "000" ++ toString n
  else if n < 100 then "00" ++ toString n
  else if n < 1000 then "0" ++ toString n
  else toString n

/-- `datetime.date(y, m, d).isoformat()`. -/
def isoformat (y m d : Int) : String :=
  pad4 y ++ "-" ++ pad2 m ++ "-" ++ pad2 d

/-- Modelled from the spec: the value scan.py passes to `mopidy.models.Track`
for `composers`/`performers` is either a list of Artist records or the empty
string `''`; the `Track` constructor (in `mopidy.models`, not under src/)
stores these arguments as a sequence of ArtistRecords, and per the spec the
empty-string case denotes the empty sequence ("composers and performers
default to an empty sequence when nothing was collected"). -/
inductive ArtistsArg where
  | ofList (l : List Artist) : ArtistsArg
  | emptyStr : ArtistsArg
deriving DecidableEq, Repr

/-- Modelled from the spec: the sequence of ArtistRecords the `Track`
constructor stores for an `ArtistsArg` (iterating `''` yields nothing). -/
def ArtistsArg.toSeq : ArtistsArg → List Artist
  | .ofList l => l
  | .emptyStr => []

/-- The `last_modified` computation (lines 175-176): applied only when the
stored `mtime` value is truthy; `int(...)` on a non-numeric value raises. -/
def lastModifiedOf (v : TagValue) : Option (Option Int) :=
  if truthy v then (toIntVal v).map some else some none

/-- The `length` computation (lines 178-179): applied only when the stored
`duration` value is truthy; `// gst.MSECOND` is Python floor division. -/
def lengthOf (v : TagValue) : Option (Option Int) :=
  if truthy v then (toIntVal v).map (fun n => some (n.fdiv MSECOND))
  else some none

/-- The `date` field computation of `audio_data_to_track` (lines 163-170):
guarded by presence and truthiness; `datetime.date` `ValueError` is swallowed
(no date set); a truthy non-date value would raise `AttributeError`
(modelled as `none`, the whole call failing). -/
def dateOf (data : TagMap) : Option (Option String) :=
  match List.lookup TAG_DATE data with
  | some v =>
    if truthy v then
      match v with
      | .date y m d =>
        some (if validDate y m d then some (isoformat y m d) else none)
      | _ => none
    else some none
  | none => some none

/-- The artist-expansion branch (lines 184-189 and the analogous composer and
performer branches): a list-valued `name` expands to one `Artist` per element
carrying only that name; a string or missing `name` keeps the single
`Artist(**kwargs)`; any other `name` value would raise `TypeError` when
iterated (modelled as `none`). -/
def expandNames (kw : ArtistKwargs) : Option (List Artist) :=
  match kw.name with
  | some (.strs l) =>
    some (l.map fun a => ({ name := some (.str a) } : Artist))
  | some (.str _) => some [mkArtist kw]
  | none => some [mkArtist kw]
  | some _ => none

/-- The composer/performer variant of the expansion (lines 191-205): in the
non-list case the kwargs dict's truthiness decides between a one-record list
and the empty string `''`. -/
def expandNamesOrEmpty (kw : ArtistKwargs) : Option ArtistsArg :=
  match kw.name with
  | some (.strs l) =>
    some (.ofList (l.map fun a => ({ name := some (.str a) } : Artist)))
  | some (.str _) =>
    some (if kw.nonempty then .ofList [mkArtist kw] else .emptyStr)
  | none =>
    some (if kw.nonempty then .ofList [mkArtist kw] else .emptyStr)
  | some _ => none

/-- `audio_data_to_track`: maps the scanned dictionary to a `Track` record.
`none` models an uncaught Python exception (a missing `uri`/`mtime`/
`duration` key, a non-date `date` value, or a non-iterable multi-name
value); on dictionaries produced by `Scanner.scan` the reserved keys are
always present. -/
def audio_data_to_track (data : TagMap) : Option Track := do
  let albumartist_kwargs : ArtistKwargs :=
    { name := retrieve data TAG_ALBUM_ARTIST none
      musicbrainz_id := retrieve data "musicbrainz-albumartistid" none }
  let album_kwargs : AlbumKwargs :=
    { name := retrieve data TAG_ALBUM none
      num_tracks := retrieve data TAG_TRACK_COUNT none
      num_discs := retrieve data TAG_ALBUM_VOLUME_COUNT none
      musicbrainz_id := retrieve data "musicbrainz-albumid" none }
  let artist_kwargs : ArtistKwargs :=
    { name := retrieve data TAG_ARTIST none
      musicbrainz_id := retrieve data "musicbrainz-artistid" none }
  let composer_kwargs : ArtistKwargs :=
    { name := retrieve data TAG_COMPOSER none }
  let performer_kwargs : ArtistKwargs :=
    { name := retrieve data TAG_PERFORMER none }
  let trackName := retrieve data TAG_ORGANIZATION (retrieve data TAG_TITLE none)
  let trackComment :=
    retrieve data TAG_COPYRIGHT
      (retrieve data TAG_LOCATION (retrieve data "comment" none))
  let dateField ← dateOf data
  let albumArtists :=
    if albumartist_kwargs.nonempty then [mkArtist albumartist_kwargs] else []
  let mtimeV ← List.lookup "mtime" data
  let lastModified ← lastModifiedOf mtimeV
  let durV ← List.lookup TAG_DURATION data
  let lengthField ← lengthOf durV
  let uriV ← List.lookup "uri" data
  let artists ← expandNames artist_kwargs
  let composersArg ← expandNamesOrEmpty composer_kwargs
  let performersArg ← expandNamesOrEmpty performer_kwargs
  some
    { uri := uriV
      name := trackName
      track_no := retrieve data TAG_TRACK_NUMBER none
      disc_no := retrieve data TAG_ALBUM_VOLUME_NUMBER none
      genre := retrieve data TAG_GENRE none
      bitrate := retrieve data TAG_BITRATE none
      comment := trackComment
      musicbrainz_id := retrieve data "musicbrainz-trackid" none
      date := dateField
      length := lengthField
      last_modified := lastModified
      album :=
        { name := album_kwargs.name
          num_tracks := album_kwargs.num_tracks
          num_discs := album_kwargs.num_discs
          musicbrainz_id := album_kwargs.musicbrainz_id
          artists := albumArtists }
      artists := artists
      composers := composersArg.toSeq
      performers := performersArg.toSeq }

/-! ## Helper lemmas -/

/-- Whether a poll observation carries a terminal event for `_collect`:
an error, end-of-stream, or an `ASYNC_DONE` whose source is the pipeline. -/
def isTerminal : Option GstMessage → Bool
  | some (.error _) => true
  | some .eos => true
  | some (.asyncDone srcIsPipe) => srcIsPipe
  | _ => false

theorem collect_no_terminal_timeout (start timeoutMs : Nat)
    (trace : List PollObs) :
    ∀ data : TagMap,
      (∀ p ∈ trace, isTerminal p.2 = false) →
      (∃ p ∈ trace, start + timeoutMs ≤ p.1) →
      ∃ rest, collect start timeoutMs data trace =
        some (Except.error ⟨timeoutMsg timeoutMs⟩, rest) := by
  induction trace with
  | nil =>
    intro data _ hcov
    simp at hcov
  | cons hd tl ih =>
    obtain ⟨t, m⟩ := hd
    intro data hnt hcov
    by_cases ht : t < start + timeoutMs
    · have hm : isTerminal m = false := hnt (t, m) (List.mem_cons_self _ _)
      have hnt' : ∀ p ∈ tl, isTerminal p.2 = false :=
        fun p hp => hnt p (List.mem_cons_of_mem _ hp)
      have hcov' : ∃ p ∈ tl, start + timeoutMs ≤ p.1 := by
        obtain ⟨p, hp, hle⟩ := hcov
        rcases List.mem_cons.mp hp with rfl | hp'
        · simp at hle; omega
        · exact ⟨p, hp', hle⟩
      cases m with
      | none =>
        simpa [collect, ht] using ih data hnt' hcov'
      | some g =>
        cases g with
        | error e => simp [isTerminal] at hm
        | eos => simp [isTerminal] at hm
        | asyncDone b =>
          have hb : b = false := by simpa [isTerminal] using hm
          subst hb
          simpa [collect, ht] using ih data hnt' hcov'
        | tag kvs =>
          simpa [collect, ht] using
            ih (kvs.foldl (fun mp kv => tmInsert mp kv.1 kv.2) data) hnt' hcov'
        | other =>
          simpa [collect, ht] using ih data hnt' hcov'
    · exact ⟨(t, m) :: tl, by simp [collect, ht]⟩

theorem scan_cases (s : Scanner) (uri : String) (env : Env)
    (res : Except ScannerError TagMap) (pb : PipeBus)
    (h : scan s uri env = some (res, pb)) :
    pb = reset (setup env) ∧
    ∃ res0 rest,
      collect env.startTime s.timeoutMs [] env.trace = some (res0, rest) ∧
      res = (match res0 with
             | .error e => Except.error e
             | .ok data0 => scanFinalize s uri env data0) := by
  unfold scan at h
  cases hc : collect env.startTime s.timeoutMs [] env.trace with
  | none => rw [hc] at h; simp at h
  | some pr =>
    obtain ⟨res0, rest⟩ := pr
    rw [hc] at h
    simp only [Option.some.injEq, Prod.mk.injEq] at h
    exact ⟨h.2.symm, res0, rest, rfl, h.1.symm⟩

theorem scanFinalize_ok (s : Scanner) (uri : String) (env : Env)
    (data0 data : TagMap) (h : scanFinalize s uri env data0 = .ok data) :
    data = tmInsert (tmInsert (tmInsert data0 "uri" (.str uri)) "mtime"
      (query_mtime env uri)) TAG_DURATION (query_duration env) := by
  unfold scanFinalize at h
  split at h
  · simpa using h.symm
  · dsimp only at h
    split at h
    · simpa using h.symm
    · simp at h

/-! ## Claims about the collect loop -/

/-- C5: if the event source never yields a terminal event, `_collect`
terminates once `timeout_ms` of wall-clock time has elapsed since loop entry
and fails with the `Timeout after <timeout_ms>ms` `ScannerError`; with
`timeout_ms = 0` the loop body never runs and the failure consumes no
observation at all. -/
theorem collect_timeout (start timeoutMs : Nat) (data : TagMap)
    (trace : List PollObs)
    (hnt : ∀ p ∈ trace, isTerminal p.2 = false)
    (hcov : ∃ p ∈ trace, start + timeoutMs ≤ p.1) :
    (∃ rest, collect start timeoutMs data trace =
      some (Except.error ⟨timeoutMsg timeoutMs⟩, rest)) ∧
    (∀ t m rest2, timeoutMs = 0 → trace = (t, m) :: rest2 → start ≤ t →
      collect start timeoutMs data trace =
        some (Except.error ⟨timeoutMsg timeoutMs⟩, (t, m) :: rest2)) := by
  refine ⟨collect_no_terminal_timeout start timeoutMs trace data hnt hcov, ?_⟩
  rintro t m rest2 rfl rfl hst
  have ht : ¬ t < start := by omega
  simp [collect, ht]

/-- Witness for C5: with `timeout_ms = 3` and only non-terminal observations
the loop fails with the timeout error, and with `timeout_ms = 0` the very
first observation is already past the deadline and nothing is consumed. -/
theorem collect_timeout_witness :
    (∃ rest, collect 0 3 [] [(0, some .other), (5, none)] =
      some (Except.error ⟨timeoutMsg 3⟩, rest)) ∧
    collect 7 0 [] [(7, none), (8, some .other)] =
      some (Except.error ⟨timeoutMsg 0⟩, [(7, none), (8, some .other)]) := by
  constructor
  · exact (collect_timeout 0 3 [] [(0, some .other), (5, none)]
      (by decide) ⟨(5, none), by simp, by simp⟩).1
  · exact (collect_timeout 7 0 [] [(7, none), (8, some .other)]
      (by decide) ⟨(7, none), by simp, by simp⟩).2 7 none
      [(8, some .other)] rfl rfl (by omega)

/-- C6: within the deadline, an `ASYNC_DONE` message whose source is not the
top-level pipeline leaves the loop running (the result is that of the
remaining observations), while one originating from the pipeline ends
collection successfully with the tags accumulated so far. -/
theorem collect_async_done_origin (start timeoutMs : Nat) (data : TagMap)
    (t : Nat) (rest : List PollObs) (h : t < start + timeoutMs) :
    collect start timeoutMs data ((t, some (.asyncDone false)) :: rest) =
      collect start timeoutMs data rest ∧
    collect start timeoutMs data ((t, some (.asyncDone true)) :: rest) =
      some (Except.ok data, rest) := by
  simp [collect, h]

/-- Witness for C6: a child-element settle at time 1 is skipped and the
pipeline's own settle at time 2 then ends collection. -/
theorem collect_async_done_origin_witness :
    collect 0 10 [("a", TagValue.str "b")]
        [(1, some (.asyncDone false)), (2, some (.asyncDone true))] =
      some (Except.ok [("a", TagValue.str "b")], []) := by
  rw [(collect_async_done_origin 0 10 [("a", TagValue.str "b")] 1
      [(2, some (.asyncDone true))] (by omega)).1]
  exact (collect_async_done_origin 0 10 [("a", TagValue.str "b")] 2 []
      (by omega)).2

/-- C10: tag merging during collection is last-writer-wins — whether the two
bindings for the same key arrive in two separate tag messages or as
successive keys of one message, the accumulated dictionary maps the key to
the later value (in contrast to the aggregator's first-writer-wins copies). -/
theorem collect_tag_last_writer (start timeoutMs t1 t2 t3 : Nat)
    (k : String) (v1 v2 : TagValue) (data : TagMap) (rest : List PollObs)
    (h1 : t1 < start + timeoutMs) (h2 : t2 < start + timeoutMs)
    (h3 : t3 < start + timeoutMs) :
    collect start timeoutMs data
        ((t1, some (.tag [(k, v1)])) :: (t2, some (.tag [(k, v2)])) ::
          (t3, some .eos) :: rest) =
      some (Except.ok (tmInsert (tmInsert data k v1) k v2), rest) ∧
    collect start timeoutMs data
        ((t1, some (.tag [(k, v1), (k, v2)])) :: (t3, some .eos) :: rest) =
      some (Except.ok (tmInsert (tmInsert data k v1) k v2), rest) ∧
    List.lookup k (tmInsert (tmInsert data k v1) k v2) = some v2 := by
  refine ⟨?_, ?_, ?_⟩
  · simp [collect, h1, h2, h3]
  · simp [collect, h1, h3]
  · simp [tmInsert, List.lookup]

/-- Witness for C10: key `k` bound to `1` then `2` ends up bound to `2`. -/
theorem collect_tag_last_writer_witness :
    collect 0 9 []
        [(1, some (.tag [("k", TagValue.int 1)])),
         (2, some (.tag [("k", TagValue.int 2)])), (3, some .eos)] =
      some (Except.ok [("k", TagValue.int 2), ("k", TagValue.int 1)], []) ∧
    List.lookup "k" [("k", TagValue.int 2), ("k", TagValue.int 1)] =
      some (TagValue.int 2) := by
  have h := collect_tag_last_writer 0 9 1 2 3 "k" (TagValue.int 1)
    (TagValue.int 2) [] [] (by omega) (by omega) (by omega)
  exact ⟨h.1, h.2.2⟩

/-! ## Claims about scan -/

theorem scanFinalize_eq (s : Scanner) (uri : String) (env : Env)
    (data0 : TagMap) :
    scanFinalize s uri env data0 =
      (let data := tmInsert (tmInsert (tmInsert data0 "uri" (.str uri))
        "mtime" (query_mtime env uri)) TAG_DURATION (query_duration env)
       match s.minDurationMs with
       | none => .ok data
       | some m =>
         if pyGe (query_duration env) (m * MSECOND) then .ok data
         else .error ⟨rejectMsg m⟩) := by
  unfold scanFinalize
  cases s.minDurationMs <;> simp [tmInsert, List.lookup]

/-- Concrete environment whose pipeline reports an immediate end-of-stream
and a native-unit duration of 2000000 ns, i.e. 2 ms. -/
def envC1 : Env :=
  { startTime := 0, trace := [(0, some .eos)], durationNs := some 2000000,
    noPreroll := false, mtimeOf := fun _ => 0 }

/-- C1 (counterexample): with a queried pipeline duration of 2000000
native-unit nanoseconds (= 2 ms), the value `scan` stores under the reserved
`duration` key is the raw native-unit integer 2000000, not the
2-millisecond conversion the claim asserts is stored. -/
theorem scan_duration_not_milliseconds_cex :
    (scan ⟨1000, none⟩ "file:///a" envC1).map
        (fun r => r.1.toOption.map (List.lookup TAG_DURATION)) =
      some (some (some (TagValue.int 2000000))) ∧
    (2000000 : Int).fdiv MSECOND = 2 ∧
    TagValue.int 2000000 ≠ TagValue.int 2 := by
  refine ⟨by rfl, by decide, by decide⟩

/-- C1 (amended): for every successful probe, the value stored under the
reserved `duration` key is `_query_duration`'s result taken verbatim in the
pipeline's native `FORMAT_TIME` (nanosecond) unit — the queried integer when
the query succeeds and Python `None` when it raises — with conversion to
milliseconds happening only downstream (the acceptance threshold is scaled
by `gst.MSECOND`, and `audio_data_to_track` divides by `gst.MSECOND`). -/
theorem scan_duration_native_units (s : Scanner) (uri : String) (env : Env)
    (data : TagMap) (pb : PipeBus)
    (h : scan s uri env = some (Except.ok data, pb)) :
    List.lookup TAG_DURATION data = some (query_duration env) ∧
    (∀ d, env.durationNs = some d → query_duration env = TagValue.int d) ∧
    (env.durationNs = none → query_duration env = TagValue.null) := by
  obtain ⟨-, res0, rest, hc, hres⟩ := scan_cases s uri env _ pb h
  cases res0 with
  | error e => simp at hres
  | ok d0 =>
    have hdata := scanFinalize_ok s uri env d0 data hres.symm
    subst hdata
    refine ⟨?_, ?_, ?_⟩
    · simp [tmInsert, List.lookup]
    · intro d hd; simp [query_duration, hd]
    · intro hd; simp [query_duration, hd]

/-- Witness for the amended C1, at the concrete environment `envC1`. -/
theorem scan_duration_native_units_witness :
    List.lookup TAG_DURATION
        [(TAG_DURATION, TagValue.int 2000000), ("mtime", TagValue.int 0),
         ("uri", TagValue.str "file:///a")] =
      some (query_duration envC1) := by
  have h : scan ⟨1000, none⟩ "file:///a" envC1 =
      some (Except.ok [(TAG_DURATION, TagValue.int 2000000),
        ("mtime", TagValue.int 0), ("uri", TagValue.str "file:///a")],
        ⟨.null, true⟩) := by rfl
  exact (scan_duration_native_units _ _ _ _ _ h).1

/-- C2: every completed `scan` call — normal return, engine-reported error,
timeout, or duration rejection — leaves the bus flushing (event delivery
stopped) and the pipeline in the null state before the call returns or
raises; and `_reset` is a total function on pipeline states (it cannot
raise: the underlying `set_state` failure status is discarded), always
producing that flushed-null state. -/
theorem scan_teardown (s : Scanner) (uri : String) (env : Env)
    (res : Except ScannerError TagMap) (pb : PipeBus)
    (h : scan s uri env = some (res, pb)) :
    pb.busFlushing = true ∧ pb.pipeState = PipeState.null ∧
    ∀ pb0 : PipeBus, (reset pb0).busFlushing = true ∧
      (reset pb0).pipeState = PipeState.null := by
  obtain ⟨hpb, -⟩ := scan_cases s uri env res pb h
  subst hpb
  exact ⟨rfl, rfl, fun pb0 => ⟨rfl, rfl⟩⟩

/-- Concrete environment whose pipeline reports a decode error. -/
def envErr : Env :=
  { startTime := 0, trace := [(0, some (.error "decode failed"))],
    durationNs := none, noPreroll := false, mtimeOf := fun _ => 0 }

/-- Witness for C2, on the engine-error path of `envErr`. -/
theorem scan_teardown_witness :
    (⟨PipeState.null, true⟩ : PipeBus).busFlushing = true ∧
    (⟨PipeState.null, true⟩ : PipeBus).pipeState = PipeState.null := by
  have h : scan ⟨1000, some 100⟩ "u" envErr =
      some (Except.error ⟨"decode failed"⟩, ⟨PipeState.null, true⟩) := by rfl
  have hth := scan_teardown _ _ _ _ _ h
  exact ⟨hth.1, hth.2.1⟩

/-- C3: the acceptance check of `scan`, on any call whose collect phase
succeeded — a `None` minimum duration returns the dictionary
unconditionally; a concrete minimum `m` returns the dictionary exactly when
the queried duration is present and at least `m` milliseconds (`m *
gst.MSECOND` in the stored nanosecond unit), and fails with the
minimum-duration `ScannerError` when the duration is absent or below the
threshold. -/
theorem scan_acceptance (s : Scanner) (uri : String) (env : Env)
    (data0 : TagMap) (rest : List PollObs)
    (hc : collect env.startTime s.timeoutMs [] env.trace =
      some (Except.ok data0, rest)) :
    (s.minDurationMs = none →
      ∃ data pb, scan s uri env = some (Except.ok data, pb)) ∧
    (∀ m d, s.minDurationMs = some m → env.durationNs = some d →
      m * MSECOND ≤ d →
      ∃ data pb, scan s uri env = some (Except.ok data, pb)) ∧
    (∀ m, s.minDurationMs = some m →
      (env.durationNs = none ∨
        ∃ d, env.durationNs = some d ∧ d < m * MSECOND) →
      ∃ pb, scan s uri env = some (Except.error ⟨rejectMsg m⟩, pb)) := by
  have hscan : scan s uri env =
      some (scanFinalize s uri env data0, reset (setup env)) := by
    unfold scan
    rw [hc]
  rw [scanFinalize_eq] at hscan
  refine ⟨?_, ?_, ?_⟩
  · intro hmin
    rw [hmin] at hscan
    exact ⟨_, _, hscan⟩
  · intro m d hmin hd hle
    rw [hmin] at hscan
    have hge : pyGe (query_duration env) (m * MSECOND) = true := by
      simp [query_duration, pyGe, hd, hle]
    dsimp only at hscan
    rw [hge] at hscan
    simp only [if_true] at hscan
    exact ⟨_, _, hscan⟩
  · intro m hmin hbad
    rw [hmin] at hscan
    have hge : pyGe (query_duration env) (m * MSECOND) = false := by
      rcases hbad with hnone | ⟨d, hd, hlt⟩
      · simp [query_duration, pyGe, hnone]
      · simp [query_duration, pyGe, hd]
        omega
    dsimp only at hscan
    rw [hge] at hscan
    simp only [Bool.false_eq_true, if_false] at hscan
    exact ⟨_, hscan⟩

/-- Concrete environment resolving a 150 ms duration. -/
def env150 : Env :=
  { startTime := 0, trace := [(0, some .eos)],
    durationNs := some (150 * MSECOND), noPreroll := false,
    mtimeOf := fun _ => 0 }

/-- Witness for C3: with `min_duration_ms = 100`, a resolved duration of
150 ms is accepted and one of 50 ms is rejected with the minimum-duration
error. -/
theorem scan_acceptance_witness :
    (∃ data pb, scan ⟨1000, some 100⟩ "u" env150 =
      some (Except.ok data, pb)) ∧
    (∃ pb, scan ⟨1000, some 100⟩ "u"
        { env150 with durationNs := some (50 * MSECOND) } =
      some (Except.error ⟨rejectMsg 100⟩, pb)) := by
  constructor
  · exact (scan_acceptance ⟨1000, some 100⟩ "u" env150 [] [] (by rfl)).2.1
      100 (150 * MSECOND) rfl rfl (by decide)
  · exact (scan_acceptance ⟨1000, some 100⟩ "u"
      { env150 with durationNs := some (50 * MSECOND) } [] [] (by rfl)).2.2
      100 rfl (Or.inr ⟨50 * MSECOND, rfl, by decide⟩)

/-- C4: every successful `scan` returns a dictionary whose reserved keys hold
the values assigned after polling — `uri` is exactly the input locator,
`mtime` is the local modification time for `file:` locators and `None`
otherwise, and `duration` is the queried duration — for every observation
trace, so tag events supplying same-named keys during collection never
override them (the reserved assignments shadow any tag binding). -/
theorem scan_reserved_keys (s : Scanner) (uri : String) (env : Env)
    (data : TagMap) (pb : PipeBus)
    (h : scan s uri env = some (Except.ok data, pb)) :
    List.lookup "uri" data = some (TagValue.str uri) ∧
    List.lookup "mtime" data = some (query_mtime env uri) ∧
    List.lookup TAG_DURATION data = some (query_duration env) ∧
    (startsWithFile uri = true →
      query_mtime env uri = TagValue.int (env.mtimeOf uri)) ∧
    (startsWithFile uri = false → query_mtime env uri = TagValue.null) := by
  obtain ⟨-, res0, rest, hc, hres⟩ := scan_cases s uri env _ pb h
  cases res0 with
  | error e => simp at hres
  | ok d0 =>
    have hdata := scanFinalize_ok s uri env d0 data hres.symm
    subst hdata
    refine ⟨?_, ?_, ?_, ?_, ?_⟩
    · simp [tmInsert, List.lookup, TAG_DURATION]
    · simp [tmInsert, List.lookup, TAG_DURATION]
    · simp [tmInsert, List.lookup]
    · intro hf; simp [query_mtime, hf]
    · intro hf; simp [query_mtime, hf]

/-- Concrete environment whose single tag event tries to set the reserved
`uri`, `mtime` and `duration` keys before end-of-stream. -/
def envTagClash : Env :=
  { startTime := 0,
    trace := [(0, some (.tag [("uri", .str "evil"), ("mtime", .int 99),
      ("duration", .int 7)])), (1, some .eos)],
    durationNs := some 5, noPreroll := false, mtimeOf := fun _ => 3 }

/-- Witness for C4: even though a tag event supplied `uri`, `mtime` and
`duration` values, the returned dictionary resolves them to the reserved
post-polling assignments. -/
theorem scan_reserved_keys_witness :
    List.lookup "uri"
        [(TAG_DURATION, TagValue.int 5), ("mtime", TagValue.int 3),
         ("uri", TagValue.str "file:///w"), ("duration", TagValue.int 7),
         ("mtime", TagValue.int 99), ("uri", TagValue.str "evil")] =
      some (TagValue.str "file:///w") ∧
    List.lookup "mtime"
        [(TAG_DURATION, TagValue.int 5), ("mtime", TagValue.int 3),
         ("uri", TagValue.str "file:///w"), ("duration", TagValue.int 7),
         ("mtime", TagValue.int 99), ("uri", TagValue.str "evil")] =
      some (query_mtime envTagClash "file:///w") ∧
    List.lookup TAG_DURATION
        [(TAG_DURATION, TagValue.int 5), ("mtime", TagValue.int 3),
         ("uri", TagValue.str "file:///w"), ("duration", TagValue.int 7),
         ("mtime", TagValue.int 99), ("uri", TagValue.str "evil")] =
      some (query_duration envTagClash) := by
  have h : scan ⟨1000, none⟩ "file:///w" envTagClash =
      some (Except.ok
        [(TAG_DURATION, TagValue.int 5), ("mtime", TagValue.int 3),
         ("uri", TagValue.str "file:///w"), ("duration", TagValue.int 7),
         ("mtime", TagValue.int 99), ("uri", TagValue.str "evil")],
        ⟨.null, true⟩) := by rfl
  have hth := scan_reserved_keys _ _ _ _ _ h
  exact ⟨hth.1, hth.2.1, hth.2.2.1⟩

/-! ## Claims about audio_data_to_track -/

/-- C7: when no composer (respectively performer) tag was collected, the
resulting track's `composers` (respectively `performers`) field is the empty
sequence of artist records — no placeholder record is constructed. -/
theorem track_empty_composers_performers (data : TagMap) (t : Track)
    (hc : List.lookup TAG_COMPOSER data = none)
    (hp : List.lookup TAG_PERFORMER data = none)
    (h : audio_data_to_track data = some t) :
    t.composers = [] ∧ t.performers = [] := by
  unfold audio_data_to_track at h
  simp only [Option.bind_eq_bind, Option.bind_eq_some, Option.some.injEq] at h
  obtain ⟨df, hdf, mv, hmv, lm, hlm, dv, hdv, lf, hlf, uv, huv, ar, har,
    co, hco, pe, hpe, ht⟩ := h
  subst ht
  simp only [retrieve, hc, expandNamesOrEmpty, ArtistKwargs.nonempty] at hco
  simp only [retrieve, hp, expandNamesOrEmpty, ArtistKwargs.nonempty] at hpe
  simp only [Option.isSome_none, Bool.or_self, Bool.false_eq_true, if_false,
    Option.some.injEq] at hco hpe
  subst hco
  subst hpe
  exact ⟨rfl, rfl⟩

/-- Witness for C7: a dictionary carrying only the reserved keys maps to a
track with empty `composers` and `performers`. -/
theorem track_empty_composers_performers_witness :
    (audio_data_to_track [("uri", TagValue.str "u"), ("mtime", TagValue.null),
        ("duration", TagValue.null)]).map
      (fun t => (t.composers, t.performers)) = some ([], []) := by
  obtain ⟨t, ht⟩ : ∃ t, audio_data_to_track [("uri", TagValue.str "u"),
      ("mtime", TagValue.null), ("duration", TagValue.null)] = some t :=
    ⟨_, rfl⟩
  have hth := track_empty_composers_performers _ t (by decide) (by decide) ht
  rw [ht]
  simp [hth.1, hth.2]

/-- C8: when the collected artist name is a list of strings, the track's
`artists` field is one artist record per element, in order, named after the
elements, each with an absent `musicbrainz_id` — even if a
`musicbrainz-artistid` tag was collected, since that attribute is not
distributed over the expansion. -/
theorem track_multi_artist_expansion (data : TagMap) (l : List String)
    (t : Track) (ha : List.lookup TAG_ARTIST data = some (.strs l))
    (h : audio_data_to_track data = some t) :
    t.artists = l.map (fun a =>
      ({ name := some (.str a), musicbrainz_id := none } : Artist)) := by
  unfold audio_data_to_track at h
  simp only [Option.bind_eq_bind, Option.bind_eq_some, Option.some.injEq] at h
  obtain ⟨df, hdf, mv, hmv, lm, hlm, dv, hdv, lf, hlf, uv, huv, ar, har,
    co, hco, pe, hpe, ht⟩ := h
  subst ht
  simp only [retrieve, ha, expandNames, Option.some.injEq] at har
  subst har
  rfl

/-- Witness for C8: artist value `["A", "B"]` with a collected
`musicbrainz-artistid` expands to two id-less artist records. -/
theorem track_multi_artist_expansion_witness :
    (audio_data_to_track [("artist", TagValue.strs ["A", "B"]),
        ("musicbrainz-artistid", TagValue.str "mbid"),
        ("uri", TagValue.str "u"), ("mtime", TagValue.null),
        ("duration", TagValue.null)]).map Track.artists =
      some [⟨some (TagValue.str "A"), none⟩,
        ⟨some (TagValue.str "B"), none⟩] := by
  obtain ⟨t, ht⟩ : ∃ t, audio_data_to_track
      [("artist", TagValue.strs ["A", "B"]),
       ("musicbrainz-artistid", TagValue.str "mbid"),
       ("uri", TagValue.str "u"), ("mtime", TagValue.null),
       ("duration", TagValue.null)] = some t := ⟨_, rfl⟩
  have hth := track_multi_artist_expansion _ ["A", "B"] t (by decide) ht
  rw [ht]
  simp [hth]

/-- C9: the `_retrieve` copies are first-writer-wins for the track name —
whenever a `title` tag was collected the track's name is that title (the
later `organization` fallback cannot overwrite it), and when no `title` was
collected the name falls back to the `organization` value. -/
theorem track_name_first_writer (data : TagMap) (t : Track)
    (h : audio_data_to_track data = some t) :
    (∀ v, List.lookup TAG_TITLE data = some v → t.name = some v) ∧
    (List.lookup TAG_TITLE data = none →
      t.name = List.lookup TAG_ORGANIZATION data) := by
  unfold audio_data_to_track at h
  simp only [Option.bind_eq_bind, Option.bind_eq_some, Option.some.injEq] at h
  obtain ⟨df, hdf, mv, hmv, lm, hlm, dv, hdv, lf, hlf, uv, huv, ar, har,
    co, hco, pe, hpe, ht⟩ := h
  subst ht
  constructor
  · intro v hv
    simp [retrieve, hv]
  · intro hv
    simp [retrieve, hv]

/-- Witness for C9: with both `title: "X"` and `organization: "Y"` the track
name is `"X"`; with only `organization: "Y"` it is `"Y"`. -/
theorem track_name_first_writer_witness :
    (audio_data_to_track [("title", TagValue.str "X"),
        ("organization", TagValue.str "Y"), ("uri", TagValue.str "u"),
        ("mtime", TagValue.null), ("duration", TagValue.null)]).map
      Track.name = some (some (TagValue.str "X")) ∧
    (audio_data_to_track [("organization", TagValue.str "Y"),
        ("uri", TagValue.str "u"), ("mtime", TagValue.null),
        ("duration", TagValue.null)]).map
      Track.name = some (some (TagValue.str "Y")) := by
  constructor
  · obtain ⟨t, ht⟩ : ∃ t, audio_data_to_track [("title", TagValue.str "X"),
        ("organization", TagValue.str "Y"), ("uri", TagValue.str "u"),
        ("mtime", TagValue.null), ("duration", TagValue.null)] = some t :=
      ⟨_, rfl⟩
    have hth := (track_name_first_writer _ t ht).1 (TagValue.str "X")
      (by decide)
    rw [ht]
    simp [hth]
  · obtain ⟨t, ht⟩ : ∃ t, audio_data_to_track
        [("organization", TagValue.str "Y"), ("uri", TagValue.str "u"),
         ("mtime", TagValue.null), ("duration", TagValue.null)] = some t :=
      ⟨_, rfl⟩
    have hth := (track_name_first_writer _ t ht).2 (by decide)
    rw [ht]
    simp [hth]
    decide

end MopidyScan
